import Mathlib

/-!
Verification development for the evaluation core of a tree-walking
interpreter (a dynamically-typed scripting language runtime).

The embedding follows the two source files of the core:

* `src/environment/mod.rs` — the `Object` runtime value model, truthiness,
  equality, and the `ObjectCaller` implementation (`is_callable`, `call`,
  `arity`);
* `src/interpreter.rs` — the `Interpreter` struct, `execute_block`,
  `runtime_error`, and the statement/expression visitors.

Modelling decisions, recorded once here:

* Machine floats (`f64`) are embedded as `Rat`.  No property proved below
  depends on IEEE-754 specifics (rounding, NaN, infinities, `-0.0`, or the
  textual rendering of floats); the claims at issue concern variant
  dispatch, truthiness, equality across variants, scoping and control flow.
* Shared mutable environments (`Rc<RefCell<Environment>>` in the source)
  are embedded as indices into an explicit heap of frames carried in the
  interpreter state.  A fresh environment is allocated at the end of the
  heap, so every `enclosing` link of a reachable frame points to a
  strictly smaller index (the chains are acyclic by construction).
* Ambient effects (the global error reporter and standard output) are
  embedded as lists carried in the interpreter state.
* The evaluator is given explicit fuel (a `Nat`), decremented on every
  recursive step; out of fuel the evaluator returns its input state
  unchanged.  All theorems are stated so that the fuel pattern `f + 1`
  exposes exactly one unfolding of the source's recursion.
-/

/-- Modelled from the spec: the token kind produced by the external
lexer/parser (`token.rs` is not part of the core sources).  Only the kinds
the evaluator dispatches on are needed, plus `Identifier` and `Equal` for
tokens the evaluator stores but never dispatches on. -/
inductive TokenType where
  | Or
  | And
  | Bang
  | Minus
  | Plus
  | Slash
  | Star
  | Greater
  | GreaterEqual
  | Less
  | LessEqual
  | BangEqual
  | EqualEqual
  | Equal
  | Identifier
deriving DecidableEq, Repr

/-- Modelled from the spec: a token carries source position, lexeme and
kind (spec section 6: "`Token`s (position + lexeme + kind)").  The field
names follow the uses in `interpreter.rs` (`operator.token_type`,
`name.lexeme`). -/
structure Token where
  token_type : TokenType
  lexeme : String
  line : Nat
deriving DecidableEq, Repr

mutual
/-- The runtime value model, `enum Object` of `src/environment/mod.rs`.

Two payloads are adapted to the embedding:
* `Function.environment`: the source enum declares `environment: MutEnv`;
  it is embedded as an optional heap index.  The option is needed because
  the `Stmt::Function` arm of the statement visitor constructs
  `Object::Function` without this field (see `run`, which is therefore
  only typeable with `none` standing for the omitted capture).
* `Builtin`: the native function pointer `fn(Box<[BObject]>) -> BObject`
  cannot occur inside an inductive type; it is embedded as an index into
  the table `builtinImpl` below.
* The `String` variant is named `Str` (the source's name would shadow the
  standard string type inside the `Object` namespace). -/
inductive Object where
  | Number (x : Rat)
  | Boolean (b : Bool)
  | Str (s : String)
  | Nil
  | Unitialized
  | Return (v : Object)
  | Function (name : Token) (params : List Token) (body : List Stmt)
      (environment : Option Nat)
  | Builtin (name : String) (fid : Nat)

/-- Modelled from the spec: the expression AST produced by the external
parser (`expression.rs` is not part of the core sources).  The variants
and their payloads are exactly those matched by the `ExprVisitor`
implementation in `src/interpreter.rs`. -/
inductive Expr where
  | Assign (name : Token) (value : Expr)
  | Call (callee : Expr) (paren : Token) (arguments : List Expr)
  | Logical (left : Expr) (operator : Token) (right : Expr)
  | Variable (name : Token)
  | Literal (value : Object)
  | Grouping (expression : Expr)
  | Unary (operator : Token) (right : Expr)
  | Binary (left : Expr) (operator : Token) (right : Expr)

/-- Modelled from the spec: the statement AST produced by the external
parser (`statement.rs` is not part of the core sources).  The variants and
their payloads are exactly those matched by the `StmtVisitor`
implementation in `src/interpreter.rs`; any further variant falls into
that visitor's aborting default arm and is not modelled. -/
inductive Stmt where
  | Print (expression : Expr)
  | Expression (expression : Expr)
  | Block (statements : List Stmt)
  | Var (name : Token) (initializer : Expr)
  | While (condition : Expr) (body : Stmt)
  | If (condition : Expr) (then_branch : Stmt) (else_branch : Option Stmt)
  | Function (name : Token) (params : List Token) (body : List Stmt)
end

/-- Truthiness, `Object::is_thuthy` (sic) of `src/environment/mod.rs`:
`Nil` and `Unitialized` are false, a boolean is its own payload, everything
else is true. -/
def Object.is_thuthy : Object → Bool
  | Object.Nil | Object.Unitialized => false
  | Object.Boolean v => v
  | _ => true

/-- Equality of runtime values, `Object::is_equal` of
`src/environment/mod.rs`.  The match arms are in source order; every pair
not matched by a listed arm (mixed variants, and the `Return`, `Function`
and `Builtin` variants even against themselves) falls to the final
`false`. -/
def Object.is_equal : Object → Object → Bool
  | Object.Nil, Object.Nil => true
  | Object.Unitialized, Object.Unitialized => true
  | Object.Nil, _ => false
  | Object.Unitialized, _ => false
  | Object.Number a1, Object.Number a2 => decide (a1 = a2)
  | Object.Boolean a1, Object.Boolean a2 => decide (a1 = a2)
  | Object.Str a1, Object.Str a2 => decide (a1 = a2)
  | _, _ => false

/-- The callable test, `ObjectCaller::is_callable` of
`src/environment/mod.rs`: only `Function` and `Builtin` are callable. -/
def Object.is_callable : Object → Bool
  | Object.Function _ _ _ _ => true
  | Object.Builtin _ _ => true
  | _ => false

/-- Declared arity, `ObjectCaller::arity` of `src/environment/mod.rs`:
the parameter count for a `Function`, `0` for everything else (including
`Builtin` — native arity is not tracked). -/
def Object.arity : Object → Nat
  | Object.Function _ params _ _ => params.length
  | _ => 0

/-- Comma-separated rendering, `csv_str` of `src/environment/mod.rs`,
specialised to already-rendered elements. -/
def csv_str (arr : List String) : String :=
  String.intercalate ", " arr

/-- Textual rendering, the `Display` impl of `src/environment/mod.rs`.
The `Number` arm abstracts the default `f64` formatting as the `Rat`
rendering, and the `Function` arm omits the debug dump of the body; no
theorem below depends on either rendering. -/
def Object.display : Object → String
  | Object.Number i => toString i
  | Object.Boolean b => toString b
  | Object.Str s => s
  | Object.Nil => "nil"
  | Object.Unitialized => "unitialized"
  | Object.Return object => "return " ++ object.display
  | Object.Function name params _ _ =>
      "fn " ++ name.lexeme ++ "(" ++ csv_str (params.map Token.lexeme) ++ ")"
  | Object.Builtin name _ => name

/-- Modelled from the spec: the table of native builtin implementations
(builtin registration is an external collaborator, spec sections 1 and 6;
`builtin.rs` is not part of the core sources).  No claim depends on the
behaviour of any particular builtin, so the table is inert. -/
def builtinImpl : Nat → List Object → Object :=
  fun _ _ => Object.Nil

/-- Modelled from the spec: `returner::Return::get()` (`returner.rs` is
not part of the core sources).  Spec section 9: "the source's
function-call path always yields a fixed `return` marker regardless of
what the body actually produced" — so `get` is a fixed marker, embedded
as the `Return`-variant wrapper around `Nil`. -/
def Return.get : Object := Object.Return Object.Nil

/-- An environment frame: the bindings of one scope plus the optional
link to the enclosing scope, `struct Environment` of the (external)
environment module, with the `Rc` link embedded as a heap index. -/
structure Frame where
  values : List (String × Object)
  enclosing : Option Nat

/-- Insert-or-overwrite on one frame's binding list; the list embedding
of the source's name-to-value map (spec section 4.1, `define`: "inserts or
overwrites a binding in this scope only"). -/
def defineIn : List (String × Object) → String → Object → List (String × Object)
  | [], n, v => [(n, v)]
  | (k, w) :: rest, n, v =>
      if k = n then (k, v) :: rest else (k, w) :: defineIn rest n v

/-- Lookup in one frame's binding list. -/
def lookupName : List (String × Object) → String → Option Object
  | [], _ => none
  | (k, w) :: rest, n => if k = n then some w else lookupName rest n

/-- Membership test in one frame's binding list. -/
def containsName : List (String × Object) → String → Bool
  | [], _ => false
  | (k, _) :: rest, n => if k = n then true else containsName rest n

/-- Modelled from the spec: `Environment::get` (section 4.1) — search this
scope, then each enclosing scope outward; `none` when the chain is
exhausted.  The extra fuel argument bounds the walk; reachable chains have
strictly decreasing indices, so `ref + 1` steps always suffice. -/
def lookupFuel : Nat → List Frame → Nat → String → Option Object
  | 0, _, _, _ => none
  | fuel + 1, h, ref, name =>
    match h.get? ref with
    | none => none
    | some fr =>
      match lookupName fr.values name with
      | some v => some v
      | none =>
        match fr.enclosing with
        | none => none
        | some p => lookupFuel fuel h p name

/-- Outward lookup along the scope chain starting at `ref`. -/
def lookupChain (h : List Frame) (ref : Nat) (name : String) : Option Object :=
  lookupFuel (ref + 1) h ref name

/-- Modelled from the spec: `Environment::assign` (section 4.1) — search
this scope outward for an existing binding and overwrite the first match;
`none` when no scope defines the name (assignment never creates a
binding). -/
def assignFuel : Nat → List Frame → Nat → String → Object → Option (List Frame)
  | 0, _, _, _, _ => none
  | fuel + 1, h, ref, name, v =>
    match h.get? ref with
    | none => none
    | some fr =>
      if containsName fr.values name then
        some (h.set ref ({ fr with values := defineIn fr.values name v }))
      else
        match fr.enclosing with
        | none => none
        | some p => assignFuel fuel h p name v

/-- Outward assignment along the scope chain starting at `ref`. -/
def assignChain (h : List Frame) (ref : Nat) (name : String) (v : Object) :
    Option (List Frame) :=
  assignFuel (ref + 1) h ref name v

/-- The interpreter state: the two environment references held by
`struct Interpreter` of `src/interpreter.rs`, plus the ambient state of
the source embedded explicitly — the heap of environment frames (the
`Rc<RefCell<_>>` store), the error reports received by the external
`ErrorHandler` collaborator, and standard output. -/
structure Interp where
  environment : Nat
  globals : Nat
  heap : List Frame
  errors : List (Token × String)
  output : List String

/-- The initial interpreter, `Interpreter::new` of `src/interpreter.rs`:
one fresh global environment, with `environment` and `globals` both
referring to it. -/
def Interpreter.new : Interp :=
  { environment := 0, globals := 0, heap := [⟨[], none⟩], errors := [], output := [] }

/-- Allocate a fresh environment frame (the `Rc::new(RefCell::new(_))`
points of the source); returns its reference. -/
def Interp.alloc (s : Interp) (fr : Frame) : Nat × Interp :=
  (s.heap.length, { s with heap := s.heap ++ [fr] })

/-- Define a binding in the current environment,
`self.environment.borrow_mut().define(name, value)` of the source;
keyed by the token's lexeme (spec section 4.1). -/
def Interp.defineVar (s : Interp) (name : Token) (v : Object) : Interp :=
  match s.heap.get? s.environment with
  | some fr =>
      let fr2 : Frame := { fr with values := defineIn fr.values name.lexeme v }
      { s with heap := s.heap.set s.environment fr2 }
  | none => s

/-- Modelled from the spec: the message text of an UndefinedVariable
report (the spec fixes the report shape `(Token, message)` but not the
message text; no theorem depends on the exact text). -/
def undefined_message (name : Token) : String :=
  "Undefined variable " ++ name.lexeme ++ "."

/-- Error reporting, `Interpreter::runtime_error` of `src/interpreter.rs`:
forwards the `(Token, message)` pair to the error reporter and yields
`Nil` as the value of the offending expression. -/
def runtime_error (s : Interp) (operator : Token) (message : String) :
    Object × Interp :=
  (Object.Nil, { s with errors := s.errors ++ [(operator, message)] })

/-- Binding of parameters to arguments in a fresh call frame: the `while`
loop of `ObjectCaller::call` (`src/environment/mod.rs`), which defines
`params[i] := arguments[i]` for each parameter index in order.  The
source indexes with `unwrap` and is only reached after the arity check,
so the two lists have equal length at every call site. -/
def bindParams : List Token → List Object → List (String × Object) →
    List (String × Object)
  | p :: ps, a :: rest, acc => bindParams ps rest (defineIn acc p.lexeme a)
  | _, _, acc => acc

/-- Dispatch of a binary operator on the two already-evaluated operand
values: the `match (left, right)` of the `Expr::Binary` arm of
`src/interpreter.rs`, arm for arm.  String division/multiplication/
subtraction and every mixed pairing of the listed relational and
arithmetic operators report a type error and yield `Nil`; equality in the
mixed case falls back to `Object::is_equal`. -/
def binaryOp (s : Interp) (operator : Token) : Object → Object → Object × Interp
  | Object.Str str1, Object.Str str2 =>
    match operator.token_type with
    | TokenType.Plus => (Object.Str (str1 ++ str2), s)
    | TokenType.Slash | TokenType.Star | TokenType.Minus =>
        runtime_error s operator "Operands must be numbers."
    | TokenType.BangEqual => (Object.Boolean (decide (str1 ≠ str2)), s)
    | TokenType.EqualEqual => (Object.Boolean (decide (str1 = str2)), s)
    | _ => (Object.Nil, s)
  | Object.Number num1, Object.Number num2 =>
    match operator.token_type with
    | TokenType.Plus => (Object.Number (num1 + num2), s)
    | TokenType.Minus => (Object.Number (num1 - num2), s)
    | TokenType.Slash => (Object.Number (num1 / num2), s)
    | TokenType.Star => (Object.Number (num1 * num2), s)
    | TokenType.Greater => (Object.Boolean (decide (num1 > num2)), s)
    | TokenType.GreaterEqual => (Object.Boolean (decide (num1 ≥ num2)), s)
    | TokenType.Less => (Object.Boolean (decide (num1 < num2)), s)
    | TokenType.LessEqual => (Object.Boolean (decide (num1 ≤ num2)), s)
    | TokenType.BangEqual => (Object.Boolean (decide (num1 ≠ num2)), s)
    | TokenType.EqualEqual => (Object.Boolean (decide (num1 = num2)), s)
    | _ => (Object.Number 0, s)
  | val1, val2 =>
    match operator.token_type with
    | TokenType.Greater | TokenType.GreaterEqual | TokenType.Less
    | TokenType.LessEqual | TokenType.Slash | TokenType.Star
    | TokenType.Minus =>
        runtime_error s operator "Operands must be numbers."
    | TokenType.Plus =>
        runtime_error s operator "Operands must be two numbers or two strings."
    | TokenType.BangEqual => (Object.Boolean (!val1.is_equal val2), s)
    | TokenType.EqualEqual => (Object.Boolean (val1.is_equal val2), s)
    | _ => (Object.Nil, s)

/-- The mutually recursive obligations of the evaluator, bundled so that
the whole evaluator is a single function structurally recursive in its
fuel.  The constructors correspond to the recursive entry points of the
source: expression evaluation, statement execution, a statement sequence,
`execute_block`, the argument-evaluation loop of the `Expr::Call` arm, and
`ObjectCaller::call`. -/
inductive Job where
  | jExpr (e : Expr)
  | jStmt (st : Stmt)
  | jStmts (statements : List Stmt)
  | jBlock (statements : List Stmt) (environment : Nat)
  | jArgs (arguments : List Expr)
  | jCall (callee : Object) (arguments : List Object)

/-- The result of one evaluator obligation: a value for expressions and
calls, unit for statements, a value list for argument lists. -/
inductive Outcome where
  | value (v : Object)
  | unit
  | values (l : List Object)

/-- Project an outcome to the value it carries (`Nil` otherwise). -/
def Outcome.toObj : Outcome → Object
  | Outcome.value v => v
  | _ => Object.Nil

/-- Project an outcome to the value list it carries (`[]` otherwise). -/
def Outcome.toVals : Outcome → List Object
  | Outcome.values l => l
  | _ => []

/-- The evaluator.  Each `Job` arm is the corresponding function of the
source, match arm for match arm:

* `jExpr` — `impl ExprVisitor<Object> for Interpreter` (`src/interpreter.rs`);
* `jStmt` — `impl StmtVisitor<()> for Interpreter`;
* `jStmts` — the statement loop of `Interpreter::execute_block`;
* `jBlock` — `Interpreter::execute_block` (save the current environment,
  install the given one, run the statements, unconditionally restore);
* `jArgs` — the argument loop of the `Expr::Call` arm;
* `jCall` — `ObjectCaller::call` (`src/environment/mod.rs`).

In the `Stmt::Function` arm the source constructs `Object::Function`
without its `environment` field (the declaration-site environment is
never captured); the embedding records that omission as `none`, and
`jCall` consequently gives the call frame `none` as enclosing scope
where the source would use the captured environment.

Fuel is decremented on every recursive call; at fuel `0` the evaluator
yields `Outcome.unit` and the unchanged state. -/
def run : Nat → Interp → Job → Outcome × Interp
  | 0, s, _ => (Outcome.unit, s)
  | f + 1, s, job =>
    match job with
    | Job.jExpr e =>
      match e with
      | Expr.Assign name value =>
        let (v, s1) := run f s (Job.jExpr value)
        match assignChain s1.heap s1.environment name.lexeme v.toObj with
        | some h2 => (Outcome.value v.toObj, { s1 with heap := h2 })
        | none =>
            (Outcome.value v.toObj,
             { s1 with errors := s1.errors ++ [(name, undefined_message name)] })
      | Expr.Call callee paren arguments =>
        let (c, s1) := run f s (Job.jExpr callee)
        let (argsOut, s2) := run f s1 (Job.jArgs arguments)
        let calleeV := c.toObj
        let args := argsOut.toVals
        if !calleeV.is_callable then
          let (v, s3) := runtime_error s2 paren "Can only call functions and classes."
          (Outcome.value v, s3)
        else if args.length ≠ calleeV.arity then
          let (v, s3) := runtime_error s2 paren
            ("Expected " ++ toString calleeV.arity ++ " arguments, but got "
              ++ toString args.length ++ ".")
          (Outcome.value v, s3)
        else run f s2 (Job.jCall calleeV args)
      | Expr.Logical left operator right =>
        let (l, s1) := run f s (Job.jExpr left)
        if operator.token_type = TokenType.Or then
          if l.toObj.is_thuthy then (l, s1) else run f s1 (Job.jExpr right)
        else
          if !l.toObj.is_thuthy then (l, s1) else run f s1 (Job.jExpr right)
      | Expr.Variable name =>
        match lookupChain s.heap s.environment name.lexeme with
        | some v => (Outcome.value v, s)
        | none =>
            (Outcome.value Object.Nil,
             { s with errors := s.errors ++ [(name, undefined_message name)] })
      | Expr.Literal value => (Outcome.value value, s)
      | Expr.Grouping expression => run f s (Job.jExpr expression)
      | Expr.Unary operator right =>
        let (r, s1) := run f s (Job.jExpr right)
        match operator.token_type with
        | TokenType.Bang => (Outcome.value (Object.Boolean (!r.toObj.is_thuthy)), s1)
        | TokenType.Minus =>
          match r.toObj with
          | Object.Number num => (Outcome.value (Object.Number (-num)), s1)
          | _ =>
            let (v, s2) := runtime_error s1 operator "Operand must be a number."
            (Outcome.value v, s2)
        | _ => (Outcome.value Object.Nil, s1)
      | Expr.Binary left operator right =>
        let (l, s1) := run f s (Job.jExpr left)
        let (r, s2) := run f s1 (Job.jExpr right)
        let (v, s3) := binaryOp s2 operator l.toObj r.toObj
        (Outcome.value v, s3)
    | Job.jStmt st =>
      match st with
      | Stmt.Print expression =>
        let (v, s1) := run f s (Job.jExpr expression)
        (Outcome.unit, { s1 with output := s1.output ++ [v.toObj.display] })
      | Stmt.Expression expression =>
        (Outcome.unit, (run f s (Job.jExpr expression)).2)
      | Stmt.Block statements =>
        let (r, s1) := s.alloc ⟨[], some s.environment⟩
        run f s1 (Job.jBlock statements r)
      | Stmt.Var name initializer =>
        let (v, s1) := run f s (Job.jExpr initializer)
        (Outcome.unit, s1.defineVar name v.toObj)
      | Stmt.While condition body =>
        let (c, s1) := run f s (Job.jExpr condition)
        if c.toObj.is_thuthy then
          let (_, s2) := run f s1 (Job.jStmt body)
          run f s2 (Job.jStmt (Stmt.While condition body))
        else (Outcome.unit, s1)
      | Stmt.If condition then_branch else_branch =>
        let (c, s1) := run f s (Job.jExpr condition)
        if c.toObj.is_thuthy then run f s1 (Job.jStmt then_branch)
        else
          match else_branch with
          | some branch => run f s1 (Job.jStmt branch)
          | none => (Outcome.unit, s1)
      | Stmt.Function name params body =>
        let function := Object.Function name params body none
        (Outcome.unit, s.defineVar name function)
    | Job.jStmts statements =>
      match statements with
      | [] => (Outcome.unit, s)
      | stmt :: rest =>
        let (_, s1) := run f s (Job.jStmt stmt)
        run f s1 (Job.jStmts rest)
    | Job.jBlock statements environment =>
      let previous := s.environment
      let s1 := { s with environment := environment }
      let (_, s2) := run f s1 (Job.jStmts statements)
      (Outcome.unit, { s2 with environment := previous })
    | Job.jArgs arguments =>
      match arguments with
      | [] => (Outcome.values [], s)
      | arg :: rest =>
        let (v, s1) := run f s (Job.jExpr arg)
        let (vs, s2) := run f s1 (Job.jArgs rest)
        (Outcome.values (v.toObj :: vs.toVals), s2)
    | Job.jCall callee arguments =>
      match callee with
      | Object.Function _ params body environment =>
        let fr : Frame := ⟨bindParams params arguments [], environment⟩
        let (r, s1) := s.alloc fr
        let (_, s2) := run f s1 (Job.jBlock body r)
        (Outcome.value Return.get, s2)
      | Object.Builtin _ fid => (Outcome.value (builtinImpl fid arguments), s)
      | _ => (Outcome.value Object.Nil, s)

/-- Expression evaluation, `Interpreter::evaluate_expr`. -/
def evaluate_expr (f : Nat) (s : Interp) (e : Expr) : Object × Interp :=
  let (r, s1) := run f s (Job.jExpr e)
  (r.toObj, s1)

/-- Statement execution, `Interpreter::evaluate_stmt`. -/
def evaluate_stmt (f : Nat) (s : Interp) (st : Stmt) : Interp :=
  (run f s (Job.jStmt st)).2

/-- Block execution against a given environment,
`Interpreter::execute_block`. -/
def execute_block (f : Nat) (s : Interp) (statements : List Stmt)
    (environment : Nat) : Interp :=
  (run f s (Job.jBlock statements environment)).2

/-- Argument-list evaluation, the argument loop of the `Expr::Call` arm
of `src/interpreter.rs`. -/
def evaluate_args (f : Nat) (s : Interp) (arguments : List Expr) :
    List Object × Interp :=
  let (r, s1) := run f s (Job.jArgs arguments)
  (r.toVals, s1)

/-- Invocation of a callee value, `ObjectCaller::call` of
`src/environment/mod.rs`. -/
def call (f : Nat) (callee : Object) (s : Interp) (arguments : List Object) :
    Object × Interp :=
  let (r, s1) := run f s (Job.jCall callee arguments)
  (r.toObj, s1)

/-- Discriminant of an `Object` variant, for stating the spec's
variant-homogeneity of equality: two values are of the same variant
exactly when their discriminants agree. -/
def Object.variantTag : Object → Nat
  | Object.Number _ => 0
  | Object.Boolean _ => 1
  | Object.Str _ => 2
  | Object.Nil => 3
  | Object.Unitialized => 4
  | Object.Return _ => 5
  | Object.Function _ _ _ _ => 6
  | Object.Builtin _ _ => 7

/-- Test for the `Number` variant. -/
def Object.isNumberValue : Object → Bool
  | Object.Number _ => true
  | _ => false

/-- Test for the `Str` variant. -/
def Object.isStringValue : Object → Bool
  | Object.Str _ => true
  | _ => false

/-- Test for the variants that fall through every listed arm of
`Object::is_equal` even when paired with themselves: `Return`, `Function`
and `Builtin`. -/
def Object.neverEqualVariant : Object → Bool
  | Object.Return _ => true
  | Object.Function _ _ _ _ => true
  | Object.Builtin _ _ => true
  | _ => false

/-- An identifier token `x`, for concrete executions. -/
def xT : Token := ⟨TokenType.Identifier, "x", 1⟩

/-- An identifier token `f`, for concrete executions. -/
def fT : Token := ⟨TokenType.Identifier, "f", 1⟩

/-- A `-` operator token, for concrete executions. -/
def minusT : Token := ⟨TokenType.Minus, "-", 1⟩

/-- An `and` operator token, for concrete executions. -/
def andT : Token := ⟨TokenType.And, "and", 1⟩

/-- A `/` operator token, for concrete executions. -/
def slashT : Token := ⟨TokenType.Slash, "/", 1⟩

/-- A `)` token attributed to call errors, for concrete executions. -/
def parenT : Token := ⟨TokenType.Identifier, ")", 1⟩

/-- The expression `1 / 0`, the spec's example of a right operand whose
evaluation must be skipped by a short-circuited logical operator. -/
def divByZeroExpr : Expr :=
  Expr.Binary (Expr.Literal (Object.Number 1)) slashT (Expr.Literal (Object.Number 0))

/-- A literal one-parameter function value, for concrete executions. -/
def oneParamFnLit : Expr :=
  Expr.Literal (Object.Function fT [xT] [] none)

/-- C5: truthiness holds exactly when the value is not `Nil`, not
`Unitialized` and not `Boolean false`; `Nil` and `Unitialized` are falsy,
a boolean is its own payload, and every other value — including the
number 0 and the empty string — is truthy. -/
theorem truthiness_only_nil_uninitialized_false_falsy :
    Object.Nil.is_thuthy = false ∧
    Object.Unitialized.is_thuthy = false ∧
    (∀ b : Bool, (Object.Boolean b).is_thuthy = b) ∧
    (∀ x : Rat, (Object.Number x).is_thuthy = true) ∧
    (∀ s : String, (Object.Str s).is_thuthy = true) ∧
    (∀ v : Object, (Object.Return v).is_thuthy = true) ∧
    (∀ (n : Token) (p : List Token) (b : List Stmt) (e : Option Nat),
      (Object.Function n p b e).is_thuthy = true) ∧
    (∀ (n : String) (i : Nat), (Object.Builtin n i).is_thuthy = true) ∧
    (∀ v : Object, v.is_thuthy = false →
      v = Object.Nil ∨ v = Object.Unitialized ∨ v = Object.Boolean false) := by
  refine ⟨rfl, rfl, fun b => by cases b <;> rfl, fun x => rfl, fun s => rfl,
    fun v => rfl, fun n p b e => rfl, fun n i => rfl, fun v h => ?_⟩
  cases v <;> simp_all [Object.is_thuthy]

/-- Witness for C5: the number 0 is truthy, and a falsy value is one of
the three listed ones. -/
theorem truthiness_witness :
    (Object.Number 0).is_thuthy = true ∧
    (Object.Boolean false = Object.Nil ∨ Object.Boolean false = Object.Unitialized ∨
      Object.Boolean false = Object.Boolean false) :=
  ⟨truthiness_only_nil_uninitialized_false_falsy.2.2.2.1 0,
   truthiness_only_nil_uninitialized_false_falsy.2.2.2.2.2.2.2.2 (Object.Boolean false) rfl⟩

/-- C6: equality of runtime values is variant-homogeneous — values of
different variants are never equal and never coerced, while two Numbers,
Booleans or Strings compare by payload equality; at the expression level
a cross-variant `==` is false and `!=` is true. -/
theorem equality_variant_homogeneous :
    (∀ a b : Object, a.variantTag ≠ b.variantTag → a.is_equal b = false) ∧
    (∀ x y : Rat, (Object.Number x).is_equal (Object.Number y) = decide (x = y)) ∧
    (∀ p q : Bool, (Object.Boolean p).is_equal (Object.Boolean q) = decide (p = q)) ∧
    (∀ x y : String, (Object.Str x).is_equal (Object.Str y) = decide (x = y)) ∧
    (∀ (s : Interp) (t : Token) (a b : Object), a.variantTag ≠ b.variantTag →
      t.token_type = TokenType.EqualEqual → binaryOp s t a b = (Object.Boolean false, s)) ∧
    (∀ (s : Interp) (t : Token) (a b : Object), a.variantTag ≠ b.variantTag →
      t.token_type = TokenType.BangEqual → binaryOp s t a b = (Object.Boolean true, s)) := by
  have h1 : ∀ a b : Object, a.variantTag ≠ b.variantTag → a.is_equal b = false := by
    intro a b h
    cases a <;> cases b <;> first | rfl | exact absurd rfl h
  refine ⟨h1, fun x y => rfl, fun p q => rfl, fun x y => rfl, ?_, ?_⟩
  · intro s t a b h ht
    obtain ⟨tt, lex, ln⟩ := t
    cases ht
    cases a <;> cases b <;> first | rfl | exact absurd rfl h
  · intro s t a b h ht
    obtain ⟨tt, lex, ln⟩ := t
    cases ht
    cases a <;> cases b <;> first | rfl | exact absurd rfl h

/-- Witness for C6: `1 == "1"` is false, `nil == false` is false, and
`Uninitialized` is not equal to `Nil` in either order. -/
theorem equality_variant_homogeneous_witness :
    (Object.Number 1).is_equal (Object.Str "1") = false ∧
    Object.Nil.is_equal (Object.Boolean false) = false ∧
    Object.Unitialized.is_equal Object.Nil = false ∧
    Object.Nil.is_equal Object.Unitialized = false :=
  ⟨equality_variant_homogeneous.1 _ _ (by decide),
   equality_variant_homogeneous.1 _ _ (by decide),
   equality_variant_homogeneous.1 _ _ (by decide),
   equality_variant_homogeneous.1 _ _ (by decide)⟩

/-- C10: `Object::is_equal` is never true when either side is a
`Function`, `Builtin` or `Return` value — even when both sides are the
very same value, so equality is not reflexive on these variants. -/
theorem function_builtin_return_never_equal :
    (∀ a b : Object, (a.neverEqualVariant || b.neverEqualVariant) = true →
      a.is_equal b = false) ∧
    (∀ (n : Token) (p : List Token) (bd : List Stmt) (e : Option Nat),
      (Object.Function n p bd e).is_equal (Object.Function n p bd e) = false) ∧
    (∀ (n : String) (i : Nat),
      (Object.Builtin n i).is_equal (Object.Builtin n i) = false) ∧
    (∀ v : Object, (Object.Return v).is_equal (Object.Return v) = false) := by
  have h1 : ∀ a b : Object, (a.neverEqualVariant || b.neverEqualVariant) = true →
      a.is_equal b = false := by
    intro a b h
    cases a <;> cases b <;> first | rfl | exact Bool.noConfusion h
  exact ⟨h1, fun n p bd e => h1 _ _ rfl, fun n i => h1 _ _ rfl, fun v => h1 _ _ rfl⟩

/-- Witness for C10: a concrete function value is not `is_equal` to
itself. -/
theorem function_builtin_return_never_equal_witness :
    (Object.Function fT [] [] none).is_equal (Object.Function fT [] [] none) = false :=
  function_builtin_return_never_equal.1 _ _ rfl

/-- C8: when the two operand values of a binary operator are not both
Numbers and not both Strings, the relational and arithmetic operators
report "Operands must be numbers.", `+` reports "Operands must be two
numbers or two strings." (yielding `Nil` in both cases), and `==`/`!=` do
not error but apply the cross-variant equality rule. -/
theorem binary_mixed_operand_errors
    (s : Interp) (operator : Token) (l r : Object)
    (hn : (l.isNumberValue && r.isNumberValue) = false)
    (hs : (l.isStringValue && r.isStringValue) = false) :
    (operator.token_type = TokenType.Greater ∨
     operator.token_type = TokenType.GreaterEqual ∨
     operator.token_type = TokenType.Less ∨
     operator.token_type = TokenType.LessEqual ∨
     operator.token_type = TokenType.Slash ∨
     operator.token_type = TokenType.Star ∨
     operator.token_type = TokenType.Minus →
      binaryOp s operator l r
        = runtime_error s operator "Operands must be numbers.") ∧
    (operator.token_type = TokenType.Plus →
      binaryOp s operator l r
        = runtime_error s operator "Operands must be two numbers or two strings.") ∧
    (operator.token_type = TokenType.BangEqual →
      binaryOp s operator l r = (Object.Boolean (!l.is_equal r), s)) ∧
    (operator.token_type = TokenType.EqualEqual →
      binaryOp s operator l r = (Object.Boolean (l.is_equal r), s)) := by
  obtain ⟨tt, lex, ln⟩ := operator
  refine ⟨fun h => ?_, fun h => ?_, fun h => ?_, fun h => ?_⟩
  · rcases h with h|h|h|h|h|h|h <;> cases h <;>
      cases l <;> cases r <;> first | rfl | exact Bool.noConfusion hn | exact Bool.noConfusion hs
  · cases h
    cases l <;> cases r <;> first | rfl | exact Bool.noConfusion hn | exact Bool.noConfusion hs
  · cases h
    cases l <;> cases r <;> first | rfl | exact Bool.noConfusion hn | exact Bool.noConfusion hs
  · cases h
    cases l <;> cases r <;> first | rfl | exact Bool.noConfusion hn | exact Bool.noConfusion hs

/-- Witness for C8: evaluating `"a" - 1` reports the TypeError "Operands
must be numbers." and yields `Nil`. -/
theorem binary_mixed_operand_errors_witness :
    binaryOp Interpreter.new minusT (Object.Str "a") (Object.Number 1)
      = runtime_error Interpreter.new minusT "Operands must be numbers." :=
  (binary_mixed_operand_errors Interpreter.new minusT (Object.Str "a") (Object.Number 1)
      rfl rfl).1
    (Or.inr (Or.inr (Or.inr (Or.inr (Or.inr (Or.inr rfl))))))

/-- C2: a call of a user-defined `Function` value yields the fixed
`Return::get()` marker, regardless of the parameters, the body, the
captured environment, the arguments and the state — i.e. regardless of
what the body actually produced. -/
theorem call_always_yields_fixed_return_marker
    (f : Nat) (s : Interp) (name : Token) (params : List Token)
    (body : List Stmt) (environment : Option Nat) (arguments : List Object) :
    (call (f + 1) (Object.Function name params body environment) s arguments).1
      = Return.get := rfl

/-- C3: executing a `Block` statement allocates a fresh environment whose
enclosing scope is the environment current at entry, runs the contained
statements with that environment current, and afterwards the current
environment is exactly the one from before the block, at every fuel (the
evaluator never aborts, so this also covers executions in which errors
were signaled mid-block). -/
theorem block_saves_and_restores_environment
    (f : Nat) (s : Interp) (statements : List Stmt) :
    ((evaluate_stmt f s (Stmt.Block statements)).environment = s.environment) ∧
    (∀ r : Nat, (execute_block f s statements r).environment = s.environment) ∧
    (evaluate_stmt (f + 1) s (Stmt.Block statements)
      = execute_block f ({ s with heap := s.heap ++ [⟨[], some s.environment⟩] })
          statements s.heap.length) ∧
    (∀ r : Nat, execute_block (f + 1) s statements r
      = { (run f ({ s with environment := r }) (Job.jStmts statements)).2
            with environment := s.environment }) := by
  have hb : ∀ (g : Nat) (s1 : Interp) (r : Nat),
      (run g s1 (Job.jBlock statements r)).2.environment = s1.environment := by
    intro g s1 r
    cases g with
    | zero => rfl
    | succ g => simp [run]
  refine ⟨?_, fun r => hb f s r, ?_, fun r => ?_⟩
  · cases f with
    | zero => rfl
    | succ f =>
      show (run f _ (Job.jBlock statements _)).2.environment = s.environment
      rw [hb]
  · rfl
  · rfl

/-- C4: logical expressions short-circuit — the left operand is evaluated
first; `or` returns it (value and state) when truthy, `and` returns it
when falsy, and only otherwise is the right operand evaluated, in the
state left by the left operand.  In the short-circuit cases the result is
exactly `evaluate_expr f s l`, so no effect of the right operand (output,
errors, heap) occurs. -/
theorem logical_short_circuits
    (f : Nat) (s : Interp) (l r : Expr) (operator : Token) :
    (operator.token_type = TokenType.Or → (evaluate_expr f s l).1.is_thuthy = true →
      evaluate_expr (f + 1) s (Expr.Logical l operator r) = evaluate_expr f s l) ∧
    (operator.token_type = TokenType.Or → (evaluate_expr f s l).1.is_thuthy = false →
      evaluate_expr (f + 1) s (Expr.Logical l operator r)
        = evaluate_expr f (evaluate_expr f s l).2 r) ∧
    (operator.token_type = TokenType.And → (evaluate_expr f s l).1.is_thuthy = false →
      evaluate_expr (f + 1) s (Expr.Logical l operator r) = evaluate_expr f s l) ∧
    (operator.token_type = TokenType.And → (evaluate_expr f s l).1.is_thuthy = true →
      evaluate_expr (f + 1) s (Expr.Logical l operator r)
        = evaluate_expr f (evaluate_expr f s l).2 r) := by
  refine ⟨fun hop htr => ?_, fun hop htr => ?_, fun hop htr => ?_, fun hop htr => ?_⟩ <;>
  · rcases hr : run f s (Job.jExpr l) with ⟨lv, s1⟩
    simp [evaluate_expr, hr] at htr
    simp [evaluate_expr, run, hop, hr, htr]

/-- Witness for C4: `false and (1/0)` evaluates to the left value with no
state change — the division on the right is never evaluated. -/
theorem logical_short_circuits_witness :
    evaluate_expr 2 Interpreter.new
        (Expr.Logical (Expr.Literal (Object.Boolean false)) andT divByZeroExpr)
      = evaluate_expr 1 Interpreter.new (Expr.Literal (Object.Boolean false)) :=
  (logical_short_circuits 1 Interpreter.new (Expr.Literal (Object.Boolean false))
      divByZeroExpr andT).2.2.1 rfl rfl

/-- C9: a call expression evaluates the callee first, then the arguments
left-to-right; a non-callable callee reports "Can only call functions and
classes.", an argument count different from the callee's arity reports
"Expected <arity> arguments, but got <count>."; in both failure cases the
expression yields `Nil` (via `runtime_error`) in the state reached after
argument evaluation, so the callee is never invoked; only when both
checks pass is `call` entered. -/
theorem call_callee_checks
    (f : Nat) (s : Interp) (callee : Expr) (paren : Token)
    (arguments : List Expr) :
    ((evaluate_expr f s callee).1.is_callable = false →
      evaluate_expr (f + 1) s (Expr.Call callee paren arguments)
        = runtime_error (evaluate_args f (evaluate_expr f s callee).2 arguments).2
            paren "Can only call functions and classes.") ∧
    ((evaluate_expr f s callee).1.is_callable = true →
     (evaluate_args f (evaluate_expr f s callee).2 arguments).1.length
        ≠ (evaluate_expr f s callee).1.arity →
      evaluate_expr (f + 1) s (Expr.Call callee paren arguments)
        = runtime_error (evaluate_args f (evaluate_expr f s callee).2 arguments).2
            paren ("Expected " ++ toString (evaluate_expr f s callee).1.arity
              ++ " arguments, but got "
              ++ toString (evaluate_args f (evaluate_expr f s callee).2 arguments).1.length
              ++ ".")) ∧
    ((evaluate_expr f s callee).1.is_callable = true →
     (evaluate_args f (evaluate_expr f s callee).2 arguments).1.length
        = (evaluate_expr f s callee).1.arity →
      evaluate_expr (f + 1) s (Expr.Call callee paren arguments)
        = call f (evaluate_expr f s callee).1
            (evaluate_args f (evaluate_expr f s callee).2 arguments).2
            (evaluate_args f (evaluate_expr f s callee).2 arguments).1) ∧
    (∀ (a : Expr) (rest : List Expr),
      evaluate_args (f + 1) s (a :: rest)
        = ((evaluate_expr f s a).1 :: (evaluate_args f (evaluate_expr f s a).2 rest).1,
           (evaluate_args f (evaluate_expr f s a).2 rest).2)) := by
  refine ⟨fun hc => ?_, fun hc hl => ?_, fun hc hl => ?_, fun a rest => ?_⟩
  · rcases hr : run f s (Job.jExpr callee) with ⟨cv, s1⟩
    rcases ha : run f s1 (Job.jArgs arguments) with ⟨av, s2⟩
    simp [evaluate_expr, hr] at hc
    simp [evaluate_expr, evaluate_args, run, hr, ha, hc]
    try exact ⟨rfl, rfl⟩
    try rfl
  · rcases hr : run f s (Job.jExpr callee) with ⟨cv, s1⟩
    rcases ha : run f s1 (Job.jArgs arguments) with ⟨av, s2⟩
    simp [evaluate_expr, hr] at hc
    simp [evaluate_expr, evaluate_args, hr, ha] at hl
    simp [evaluate_expr, evaluate_args, run, hr, ha, hc, hl]
    try exact ⟨rfl, rfl⟩
    try rfl
  · rcases hr : run f s (Job.jExpr callee) with ⟨cv, s1⟩
    rcases ha : run f s1 (Job.jArgs arguments) with ⟨av, s2⟩
    simp [evaluate_expr, hr] at hc
    simp [evaluate_expr, evaluate_args, hr, ha] at hl
    simp [evaluate_expr, evaluate_args, call, run, hr, ha, hc, hl]
  · rcases hr : run f s (Job.jExpr a) with ⟨v, s1⟩
    rcases ha : run f s1 (Job.jArgs rest) with ⟨vs, s2⟩
    simp [evaluate_expr, evaluate_args, run, hr, ha]
    try exact ⟨rfl, rfl⟩
    try rfl

/-- Witness for C9: calling a one-parameter function with two arguments
reports ArityMismatch "Expected 1 arguments, but got 2." and the call
expression yields `Nil`. -/
theorem call_callee_checks_witness :
    evaluate_expr 4 Interpreter.new
        (Expr.Call oneParamFnLit parenT
          [Expr.Literal (Object.Number 1), Expr.Literal (Object.Number 2)])
      = (Object.Nil,
         { Interpreter.new with errors := [(parenT, "Expected 1 arguments, but got 2.")] }) :=
  (call_callee_checks 3 Interpreter.new oneParamFnLit parenT
      [Expr.Literal (Object.Number 1), Expr.Literal (Object.Number 2)]).2.1
    rfl (by decide)

/-- Helper for the fault-policy theorem: on operand values that are not
both Numbers and not both Strings, the binary dispatch reports the two
TypeError messages of the source's catch-all arm and yields `Nil` via
`runtime_error`. -/
theorem binaryOp_mixed_type_reports
    (s : Interp) (operator : Token) (l r : Object)
    (hn : (l.isNumberValue && r.isNumberValue) = false)
    (hs : (l.isStringValue && r.isStringValue) = false) :
    (operator.token_type = TokenType.Greater ∨
     operator.token_type = TokenType.GreaterEqual ∨
     operator.token_type = TokenType.Less ∨
     operator.token_type = TokenType.LessEqual ∨
     operator.token_type = TokenType.Slash ∨
     operator.token_type = TokenType.Star ∨
     operator.token_type = TokenType.Minus →
      binaryOp s operator l r
        = runtime_error s operator "Operands must be numbers.") ∧
    (operator.token_type = TokenType.Plus →
      binaryOp s operator l r
        = runtime_error s operator "Operands must be two numbers or two strings.") := by
  obtain ⟨tt, lex, ln⟩ := operator
  refine ⟨fun h => ?_, fun h => ?_⟩
  · rcases h with h|h|h|h|h|h|h <;> cases h <;>
      cases l <;> cases r <;>
        first | rfl | exact Bool.noConfusion hn | exact Bool.noConfusion hs
  · cases h
    cases l <;> cases r <;>
      first | rfl | exact Bool.noConfusion hn | exact Bool.noConfusion hs

/-- C7 (amended): every runtime fault — UndefinedVariable, TypeError
(unary and binary), NotCallable, ArityMismatch — is reported to the
error reporter as a `(Token, message)` pair and evaluation continues
with the next statement; the offending expression yields `Nil` — except
an assignment whose target name is undefined in every enclosing scope,
which reports the fault but still yields the assigned value.  The
conjuncts cover, in order: an undefined-variable read, an
undefined-variable assignment, a unary TypeError, the NotCallable
report of a call, the ArityMismatch report of a call, the binary
TypeError of the relational and arithmetic operators, the binary
TypeError of `+`, and the fact that a statement sequence always
proceeds to the remaining statements. -/
theorem runtime_fault_reports_and_continues :
    (∀ (f : Nat) (s : Interp) (name : Token),
      lookupChain s.heap s.environment name.lexeme = none →
        evaluate_expr (f + 1) s (Expr.Variable name)
          = (Object.Nil,
             { s with errors := s.errors ++ [(name, undefined_message name)] })) ∧
    (∀ (f : Nat) (s : Interp) (name : Token) (value : Expr),
      assignChain (evaluate_expr f s value).2.heap (evaluate_expr f s value).2.environment
          name.lexeme (evaluate_expr f s value).1 = none →
        evaluate_expr (f + 1) s (Expr.Assign name value)
          = ((evaluate_expr f s value).1,
             { (evaluate_expr f s value).2 with errors :=
                 (evaluate_expr f s value).2.errors ++ [(name, undefined_message name)] })) ∧
    (∀ (f : Nat) (s : Interp) (operator : Token) (right : Expr),
      operator.token_type = TokenType.Minus →
      (evaluate_expr f s right).1.isNumberValue = false →
        evaluate_expr (f + 1) s (Expr.Unary operator right)
          = (Object.Nil,
             { (evaluate_expr f s right).2 with errors :=
                 (evaluate_expr f s right).2.errors
                   ++ [(operator, "Operand must be a number.")] })) ∧
    (∀ (f : Nat) (s : Interp) (callee : Expr) (paren : Token) (arguments : List Expr),
      (evaluate_expr f s callee).1.is_callable = false →
        (evaluate_expr (f + 1) s (Expr.Call callee paren arguments)).1 = Object.Nil ∧
        (evaluate_expr (f + 1) s (Expr.Call callee paren arguments)).2.errors
          = (evaluate_args f (evaluate_expr f s callee).2 arguments).2.errors
              ++ [(paren, "Can only call functions and classes.")]) ∧
    (∀ (f : Nat) (s : Interp) (callee : Expr) (paren : Token) (arguments : List Expr),
      (evaluate_expr f s callee).1.is_callable = true →
      (evaluate_args f (evaluate_expr f s callee).2 arguments).1.length
         ≠ (evaluate_expr f s callee).1.arity →
        (evaluate_expr (f + 1) s (Expr.Call callee paren arguments)).1 = Object.Nil ∧
        (evaluate_expr (f + 1) s (Expr.Call callee paren arguments)).2.errors
          = (evaluate_args f (evaluate_expr f s callee).2 arguments).2.errors
              ++ [(paren, "Expected " ++ toString (evaluate_expr f s callee).1.arity
                    ++ " arguments, but got "
                    ++ toString
                        (evaluate_args f (evaluate_expr f s callee).2 arguments).1.length
                    ++ ".")]) ∧
    (∀ (f : Nat) (s : Interp) (left : Expr) (operator : Token) (right : Expr),
      ((evaluate_expr f s left).1.isNumberValue
         && (evaluate_expr f (evaluate_expr f s left).2 right).1.isNumberValue) = false →
      ((evaluate_expr f s left).1.isStringValue
         && (evaluate_expr f (evaluate_expr f s left).2 right).1.isStringValue) = false →
      (operator.token_type = TokenType.Greater ∨
       operator.token_type = TokenType.GreaterEqual ∨
       operator.token_type = TokenType.Less ∨
       operator.token_type = TokenType.LessEqual ∨
       operator.token_type = TokenType.Slash ∨
       operator.token_type = TokenType.Star ∨
       operator.token_type = TokenType.Minus) →
        evaluate_expr (f + 1) s (Expr.Binary left operator right)
          = (Object.Nil,
             { (evaluate_expr f (evaluate_expr f s left).2 right).2 with errors :=
                 (evaluate_expr f (evaluate_expr f s left).2 right).2.errors
                   ++ [(operator, "Operands must be numbers.")] })) ∧
    (∀ (f : Nat) (s : Interp) (left : Expr) (operator : Token) (right : Expr),
      ((evaluate_expr f s left).1.isNumberValue
         && (evaluate_expr f (evaluate_expr f s left).2 right).1.isNumberValue) = false →
      ((evaluate_expr f s left).1.isStringValue
         && (evaluate_expr f (evaluate_expr f s left).2 right).1.isStringValue) = false →
      operator.token_type = TokenType.Plus →
        evaluate_expr (f + 1) s (Expr.Binary left operator right)
          = (Object.Nil,
             { (evaluate_expr f (evaluate_expr f s left).2 right).2 with errors :=
                 (evaluate_expr f (evaluate_expr f s left).2 right).2.errors
                   ++ [(operator, "Operands must be two numbers or two strings.")] })) ∧
    (∀ (f : Nat) (s : Interp) (st : Stmt) (rest : List Stmt),
      run (f + 1) s (Job.jStmts (st :: rest))
        = run f (run f s (Job.jStmt st)).2 (Job.jStmts rest)) := by
  refine ⟨fun f s name h => ?_, fun f s name value h => ?_,
    fun f s operator right hop h => ?_, fun f s callee paren arguments h => ?_,
    fun f s callee paren arguments hc hl => ?_,
    fun f s left operator right hn hs0 hops => ?_,
    fun f s left operator right hn hs0 hop => ?_,
    fun f s st rest => ?_⟩
  · simp [evaluate_expr, run, h]
    try rfl
  · rcases hr : run f s (Job.jExpr value) with ⟨v, s1⟩
    simp [evaluate_expr, hr] at h
    simp [evaluate_expr, run, hr, h]
    try rfl
  · rcases hr : run f s (Job.jExpr right) with ⟨v, s1⟩
    simp [evaluate_expr, hr] at h
    cases hv : v.toObj <;> simp [hv, Object.isNumberValue] at h <;>
      (simp [evaluate_expr, run, hop, hr, hv]; try exact ⟨rfl, rfl⟩; try rfl)
  · rcases hr : run f s (Job.jExpr callee) with ⟨cv, s1⟩
    rcases ha : run f s1 (Job.jArgs arguments) with ⟨av, s2⟩
    simp [evaluate_expr, hr] at h
    refine ⟨?_, ?_⟩ <;> (simp [evaluate_expr, evaluate_args, run, hr, ha, h]; try rfl)
  · rcases hr : run f s (Job.jExpr callee) with ⟨cv, s1⟩
    rcases ha : run f s1 (Job.jArgs arguments) with ⟨av, s2⟩
    simp [evaluate_expr, hr] at hc
    simp [evaluate_expr, evaluate_args, hr, ha] at hl
    refine ⟨?_, ?_⟩ <;>
      (simp [evaluate_expr, evaluate_args, run, hr, ha, hc, hl]; try rfl)
  · rcases hl : run f s (Job.jExpr left) with ⟨lv, s1⟩
    rcases hrr : run f s1 (Job.jExpr right) with ⟨rv, s2⟩
    simp only [evaluate_expr, hl, hrr] at hn hs0
    have hb := (binaryOp_mixed_type_reports s2 operator lv.toObj rv.toObj hn hs0).1 hops
    simp [evaluate_expr, run, hl, hrr, hb, runtime_error]
    try exact ⟨rfl, rfl⟩
    try rfl
  · rcases hl : run f s (Job.jExpr left) with ⟨lv, s1⟩
    rcases hrr : run f s1 (Job.jExpr right) with ⟨rv, s2⟩
    simp only [evaluate_expr, hl, hrr] at hn hs0
    have hb := (binaryOp_mixed_type_reports s2 operator lv.toObj rv.toObj hn hs0).2 hop
    simp [evaluate_expr, run, hl, hrr, hb, runtime_error]
    try exact ⟨rfl, rfl⟩
    try rfl
  · rcases hs1 : run f s (Job.jStmt st) with ⟨u, s1⟩
    simp [run, hs1]

/-- Counterexample for C7: an assignment to an undefined name is a
runtime fault (UndefinedVariable, duly reported), yet the offending
expression evaluates to the assigned value `Number 1`, not to `Nil`. -/
theorem assign_fault_yields_value_not_nil :
    evaluate_expr 2 Interpreter.new (Expr.Assign xT (Expr.Literal (Object.Number 1)))
      = (Object.Number 1,
         { Interpreter.new with errors := [(xT, undefined_message xT)] }) ∧
    Object.Number 1 ≠ Object.Nil := by
  refine ⟨rfl, fun h => ?_⟩
  exact Object.noConfusion h

/-- Witness for C7 (amended): reading the undefined variable `x` in the
fresh interpreter yields `Nil` and appends the UndefinedVariable report. -/
theorem runtime_fault_reports_witness :
    evaluate_expr 1 Interpreter.new (Expr.Variable xT)
      = (Object.Nil, { Interpreter.new with errors := [(xT, undefined_message xT)] }) :=
  runtime_fault_reports_and_continues.1 0 Interpreter.new xT rfl

/-- C1 (the code as written): a function declaration statement stores a
`Function` value that carries no captured environment — the constructed
value's `environment` component is `none`, not the declaration-site
environment — and a later call of that value builds its frame with no
enclosing scope instead of the declaration environment. -/
theorem function_declaration_captures_no_environment :
    (evaluate_stmt 1 Interpreter.new (Stmt.Function fT [] [])
      = { Interpreter.new with
            heap := [⟨[("f", Object.Function fT [] [] none)], none⟩] }) ∧
    (∀ (f : Nat) (s : Interp) (name : Token) (params : List Token) (body : List Stmt),
      evaluate_stmt (f + 1) s (Stmt.Function name params body)
        = s.defineVar name (Object.Function name params body none)) ∧
    ((run 2 Interpreter.new (Job.jCall (Object.Function fT [] [] none) [])).2.heap
      = [⟨[], none⟩, ⟨[], none⟩]) := by
  refine ⟨rfl, fun f s name params body => rfl, rfl⟩
